import Mathlib

/-!
Verification of the Authentication and Session Lifecycle subsystem of the
trivia-app repository, as implemented in
src/src/backend/src/middleware/auth.ts (class AuthService) and
src/src/backend/src/database/redis.ts (RedisManager session methods).

Modelling choices, each traceable to the source:

* JWTs (the jsonwebtoken library) are modelled as records carrying the signed
  claims, the issued-at and expiry timestamps, and the signing secret.
  jwt.sign(payload, secret, expiresIn) stamps iat = now and
  exp = now + ttl; jwt.verify(token, secret) succeeds exactly when the
  signature matches the secret and the token is not expired (jsonwebtoken
  treats exp <= now as expired). Time is modelled as a Nat of seconds.
* The access token payload (auth.ts lines 38-46) and the refresh token
  payload (auth.ts line 53) have different shapes; jwt.verify returns
  whichever object was signed, so the decoded claims are a sum type.
  The TypeScript casts (as JWTPayload, as left-brace sessionId, userId
  right-brace) are unchecked at runtime; field projections that exist on
  both shapes (sessionId, userId) are total functions on the sum.
* The Redis session store (redis.ts lines 75-99) is modelled as an
  association map from session keys to session records, with the state
  threaded explicitly. The 7-day TTL on session keys is not modelled:
  no claim under investigation depends on store-side expiry.
* Session records are JSON values written by generateTokens
  (auth.ts lines 61-70) with exactly the fields userId, deviceId,
  createdAt, lastActivity. refreshTokens (lines 123-129) additionally
  reads session.email, session.username, session.isHost,
  session.isVerified, which are absent on every stored record; absent JSON
  fields are modelled as Option fields holding none, and the JavaScript
  reads (session.email or-else default) become Option.getD.
* Each awaited Redis command can reject (network error, lost connection);
  a Faults record says which of the commands issued by the current call
  rejects. The TypeScript try/catch blocks that swallow such rejections
  are modelled faithfully: a caught rejection makes the function return
  its error value (null in the source).
* The source collapses every failure to null; the Except error types below
  record which source branch produced the null (the branches are distinct
  in the source: distinct conditionals and distinct log calls).
* logger output is modelled only where it is the sole effect of a function
  (revokeAllUserSessions, auth.ts lines 150-154), as a list of messages in
  the state.
-/

namespace TriviaAuth

/-- Configuration from src/src/backend/src/config/environment.ts: the JWT
signing secret and the two token lifetimes (config.jwt.secret,
config.jwt.expiresIn, config.jwt.refreshExpiresIn). -/
structure Config where
  secret : Nat
  expiresIn : Nat
  refreshExpiresIn : Nat
  deriving Repr, DecidableEq

/-- A user record as consumed by AuthService.generateTokens (auth.ts
lines 38-43): user.id, user.email, user.username, user.is_host,
user.is_verified. -/
structure User where
  id : String
  email : String
  username : String
  is_host : Bool
  is_verified : Bool
  deriving Repr, DecidableEq

/-- The access-token payload signed at auth.ts lines 38-50: the JWTPayload
interface minus iat/exp (those live on the token envelope). -/
structure AccessPayload where
  userId : String
  email : String
  username : String
  isHost : Bool
  isVerified : Bool
  sessionId : String
  deviceId : Option String
  deriving Repr, DecidableEq

/-- The refresh-token payload signed at auth.ts line 53. -/
structure RefreshPayload where
  sessionId : String
  userId : String
  deriving Repr, DecidableEq

/-- The claims object recovered by jwt.verify: whichever payload shape was
signed. The source casts the result without a runtime check. -/
inductive Claims where
  | access : AccessPayload → Claims
  | refresh : RefreshPayload → Claims
  deriving Repr, DecidableEq

/-- Projection of the sessionId field, present on both payload shapes. -/
def Claims.sessionId : Claims → String
  | .access p => p.sessionId
  | .refresh p => p.sessionId

/-- Projection of the userId field, present on both payload shapes. -/
def Claims.userId : Claims → String
  | .access p => p.userId
  | .refresh p => p.userId

/-- A signed JWT: claims plus the iat/exp timestamps stamped by jwt.sign
and the secret the signature binds the token to. -/
structure Token where
  claims : Claims
  iat : Nat
  exp : Nat
  sig : Nat
  deriving Repr, DecidableEq

/-- Model of jwt.sign(payload, secret, expiresIn): stamps iat and
exp = now + ttl and signs with the secret. -/
def jwtSign (secret : Nat) (claims : Claims) (now ttl : Nat) : Token :=
  { claims := claims, iat := now, exp := now + ttl, sig := secret }

/-- Model of jwt.verify(token, secret): returns the claims exactly when the
signature matches and the token is unexpired; otherwise throws, modelled
as none (jsonwebtoken rejects exp <= now). -/
def jwtVerify (secret : Nat) (now : Nat) (tok : Token) : Option Claims :=
  if tok.sig = secret ∧ now < tok.exp then some tok.claims else none

/-- A session record as stored in Redis. generateTokens writes the four
concrete fields (auth.ts lines 61-70); the trailing Option fields model
JSON fields that are absent on every record the code writes but are read
back by refreshTokens (auth.ts lines 123-129). -/
structure SessionData where
  userId : String
  deviceId : Option String
  createdAt : Nat
  lastActivity : Nat
  email : Option String
  username : Option String
  isHost : Option Bool
  isVerified : Option Bool
  deriving Repr, DecidableEq

/-- The shared mutable state: the Redis session keyspace (an association
map keyed by sessionId) plus the log stream. -/
structure St where
  sessions : List (String × SessionData)
  log : List String
  deriving Repr, DecidableEq

/-- Lookup of a key in the session keyspace (redis.ts GET). -/
def lookupSession : List (String × SessionData) → String → Option SessionData
  | [], _ => none
  | (k, v) :: rest, sid => if k = sid then some v else lookupSession rest sid

/-- Removal of a key from the session keyspace (redis.ts DEL). -/
def removeSession : List (String × SessionData) → String → List (String × SessionData)
  | [], _ => []
  | (k, v) :: rest, sid =>
    if k = sid then removeSession rest sid else (k, v) :: removeSession rest sid

/-- RedisManager.setSession (redis.ts lines 75-84): SETEX overwrites the
key with the serialized record. The TTL argument is not modelled. -/
def setSession (st : St) (sid : String) (d : SessionData) : St :=
  { st with sessions := (sid, d) :: removeSession st.sessions sid }

/-- RedisManager.getSession (redis.ts lines 86-92): GET then JSON.parse,
none when the key is absent. -/
def getSession (st : St) (sid : String) : Option SessionData :=
  lookupSession st.sessions sid

/-- RedisManager.deleteSession (redis.ts lines 94-99): DEL on the key. -/
def deleteSession (st : St) (sid : String) : St :=
  { st with sessions := removeSession st.sessions sid }

/-- Fault injection for the awaited Redis commands of one call: each flag
says that the corresponding command rejects (connection lost, network
error). redis.ts throws on a command when the client is not connected. -/
structure Faults where
  getFails : Bool
  setFails : Bool
  delFails : Bool
  deriving Repr, DecidableEq

/-- The fault-free execution: every Redis command succeeds. -/
def noFaults : Faults :=
  { getFails := false, setFails := false, delFails := false }

/-- The access-token claims built at auth.ts lines 38-46 for a user and a
fresh sessionId. The JavaScript defaults (user.is_host or-else false) are
identities here because User carries concrete booleans. -/
def accessClaimsOf (u : User) (dev : Option String) (sid : String) : AccessPayload :=
  { userId := u.id, email := u.email, username := u.username,
    isHost := u.is_host, isVerified := u.is_verified,
    sessionId := sid, deviceId := dev }

/-- The access token signed at auth.ts lines 48-50. -/
def accessTokenOf (cfg : Config) (u : User) (dev : Option String) (sid : String)
    (now : Nat) : Token :=
  jwtSign cfg.secret (.access (accessClaimsOf u dev sid)) now cfg.expiresIn

/-- The refresh token signed at auth.ts lines 52-58, carrying only
sessionId and userId. -/
def refreshTokenOf (cfg : Config) (uid sid : String) (now : Nat) : Token :=
  jwtSign cfg.secret (.refresh { sessionId := sid, userId := uid }) now cfg.refreshExpiresIn

/-- The session record written at auth.ts lines 61-70: userId, deviceId,
createdAt, lastActivity; no email/username/isHost/isVerified fields. -/
def newSessionData (u : User) (dev : Option String) (now : Nat) : SessionData :=
  { userId := u.id, deviceId := dev, createdAt := now, lastActivity := now,
    email := none, username := none, isHost := none, isVerified := none }

/-- AuthService.generateTokens (auth.ts lines 32-73): mint a sessionId
(randomUUID, passed in as the parameter sid to expose the nondeterminism),
sign the pair, write the session record. The only awaited Redis command is
the setSession write; when it rejects the exception propagates to the
caller, modelled as the error case. -/
def generateTokens (cfg : Config) (u : User) (dev : Option String) (sid : String)
    (now : Nat) (f : Faults) (st : St) : Except Unit (Token × Token × String × St) :=
  if f.setFails then .error () else
    .ok (accessTokenOf cfg u dev sid now, refreshTokenOf cfg u.id sid now, sid,
      setSession st sid (newSessionData u dev now))

/-- The distinct null-producing branches of AuthService.verifyToken
(auth.ts lines 75-105). The source returns null for all of them; the
constructors record which branch fired (each has its own conditional or
log call in the source). -/
inductive VerifyErr where
  | tokenInvalid
  | sessionNotFound
  | storeError
  deriving Repr, DecidableEq

/-- AuthService.verifyToken (auth.ts lines 75-105): jwt.verify, session
lookup, best-effort-free lastActivity write, return the decoded claims.
Every step sits inside one try block whose catch returns null, so a
rejected Redis command (get or set) also yields the error case, with the
state unchanged by the rejected command. -/
def verifyToken (cfg : Config) (now : Nat) (f : Faults) (st : St) (tok : Token) :
    Except VerifyErr Claims × St :=
  match jwtVerify cfg.secret now tok with
  | none => (.error .tokenInvalid, st)
  | some claims =>
    if f.getFails then (.error .storeError, st)
    else
      match getSession st claims.sessionId with
      | none => (.error .sessionNotFound, st)
      | some s =>
        if f.setFails then (.error .storeError, st)
        else (.ok claims, setSession st claims.sessionId { s with lastActivity := now })

/-- The distinct null-producing branches of AuthService.refreshTokens
(auth.ts lines 107-144). The source returns null for all of them;
sessionNotFound and userIdMismatch are the two disjuncts of the guard at
line 117, evaluated left to right. -/
inductive RefreshErr where
  | tokenInvalid
  | sessionNotFound
  | userIdMismatch
  | storeError
  deriving Repr, DecidableEq

/-- The data refreshTokens holds after its read phase: the two decoded
token fields it uses and the session record fetched from the store. -/
structure RotateView where
  tokSessionId : String
  tokUserId : String
  session : SessionData
  deriving Repr, DecidableEq

/-- The read phase of AuthService.refreshTokens (auth.ts lines 111-119):
decode the presented token, fetch the session, compare the stored userId
with the token userId. Everything here up to the single GET command is
local computation, so this phase is atomic at Redis-command granularity. -/
def rotateRead (cfg : Config) (now : Nat) (f : Faults) (st : St) (tok : Token) :
    Except RefreshErr RotateView :=
  match jwtVerify cfg.secret now tok with
  | none => .error .tokenInvalid
  | some d =>
    if f.getFails then .error .storeError
    else
      match getSession st d.sessionId with
      | none => .error .sessionNotFound
      | some s =>
        if s.userId ≠ d.userId then .error .userIdMismatch
        else .ok { tokSessionId := d.sessionId, tokUserId := d.userId, session := s }

/-- The user object rebuilt from session data at auth.ts lines 121-129:
id from the store, every identity attribute from a field the store never
holds, defaulted by the or-else operators. -/
def userFromSession (s : SessionData) : User :=
  { id := s.userId, email := s.email.getD "", username := s.username.getD "",
    is_host := s.isHost.getD false, is_verified := s.isVerified.getD false }

/-- The write phase of AuthService.refreshTokens (auth.ts lines 131-139):
generateTokens (which performs the SETEX of the brand-new session under the
fresh sessionId newSid) followed by deleteSession on the old sessionId.
When the DEL rejects after the SETEX succeeded, the new record stays
written and the catch at line 140 returns null. -/
def rotateCommit (cfg : Config) (now : Nat) (f : Faults) (newSid : String)
    (v : RotateView) (st : St) : Except RefreshErr (Token × Token) × St :=
  match generateTokens cfg (userFromSession v.session) v.session.deviceId newSid now f st with
  | .error _ => (.error .storeError, st)
  | .ok (a, r, _, st1) =>
    if f.delFails then (.error .storeError, st1)
    else (.ok (a, r), deleteSession st1 v.tokSessionId)

/-- AuthService.refreshTokens (auth.ts lines 107-144): the read phase then
the write phase. newSid is the fresh randomUUID minted inside the nested
generateTokens call. -/
def refreshTokens (cfg : Config) (now : Nat) (f : Faults) (newSid : String)
    (st : St) (tok : Token) : Except RefreshErr (Token × Token) × St :=
  match rotateRead cfg now f st tok with
  | .error e => (.error e, st)
  | .ok v => rotateCommit cfg now f newSid v st

/-- AuthService.revokeSession (auth.ts lines 146-148): a single DEL on the
session key; a rejected command would propagate to the caller, so a
completed call means the delete happened. -/
def revokeSession (st : St) (sid : String) : St :=
  deleteSession st sid

/-- AuthService.revokeAllUserSessions (auth.ts lines 150-154): the body is
a single logger.info call; no Redis command is issued. -/
def revokeAllUserSessions (st : St) (userId : String) : St :=
  { st with log := ("Revoking all sessions for user: " ++ userId) :: st.log }

/-- An interleaving of two concurrent refreshTokens calls that present the
same token: both read phases run before either write phase (each phase is
a contiguous block of at most one Redis command plus local computation, so
this schedule is realizable at Redis-command granularity). Returns both
outcomes and the final state. -/
def twoConcurrentRotates (cfg : Config) (now : Nat) (newSid1 newSid2 : String)
    (st : St) (tok : Token) :
    Except RefreshErr (Token × Token) × Except RefreshErr (Token × Token) × St :=
  match rotateRead cfg now noFaults st tok with
  | .error e => (.error e, .error e, st)
  | .ok v =>
    let c1 := rotateCommit cfg now noFaults newSid1 v st
    let c2 := rotateCommit cfg now noFaults newSid2 v c1.2
    (c1.1, c2.1, c2.2)

/-- Modelled from the spec: section 4.4 lists the rotate failure modes in
order; GenerationMismatch is the step-3 failure, reachable only after the
step-2 session lookup succeeded. So a rotate attempt on a state and a
sessionId can fail with GenerationMismatch only if the session record
still exists in the store at that state. The source has no generation
field at all; this predicate captures the precondition the spec itself
imposes on that failure mode, for comparison with the source behaviour. -/
def specCanGenerationMismatch (st : St) (sid : String) : Prop :=
  (getSession st sid).isSome = true

/-- Discriminates a successful rotate outcome. -/
def rotateSucceeded : Except RefreshErr (Token × Token) → Bool
  | .ok _ => true
  | .error _ => false

/-- A concrete configuration used by witness and counterexample theorems:
a 15-minute access lifetime and a 7-day refresh lifetime, in seconds. -/
def cfg0 : Config := { secret := 7, expiresIn := 900, refreshExpiresIn := 604800 }

/-- A concrete user with nonempty identity attributes, so that resets of
those attributes are observable. -/
def user0 : User :=
  { id := "u1", email := "alice@example.com", username := "alice",
    is_host := true, is_verified := true }

/-- The empty initial state. -/
def st0 : St := { sessions := [], log := [] }

/-! Store lemmas: the Redis keyspace behaves as a map. -/

theorem lookupSession_removeSession_self (l : List (String × SessionData)) (sid : String) :
    lookupSession (removeSession l sid) sid = none := by
  induction l with
  | nil => rfl
  | cons p rest ih =>
    obtain ⟨k, v⟩ := p
    by_cases h : k = sid
    · simpa [removeSession, h] using ih
    · simp [removeSession, lookupSession, h, ih]

theorem getSession_setSession_self (st : St) (sid : String) (d : SessionData) :
    getSession (setSession st sid d) sid = some d := by
  simp [getSession, setSession, lookupSession]

theorem getSession_deleteSession_self (st : St) (sid : String) :
    getSession (deleteSession st sid) sid = none := by
  simp [getSession, deleteSession, lookupSession_removeSession_self]

/-! Helper lemmas about the issue and rotate pipeline, shared by several
claims below. -/

/-- The user rebuilt by refreshTokens from a record that generateTokens
wrote: the id survives, every identity attribute collapses to its
JavaScript default. -/
theorem userFromSession_newSessionData (u : User) (dev : Option String) (now : Nat) :
    userFromSession (newSessionData u dev now) =
      { id := u.id, email := "", username := "", is_host := false, is_verified := false } := rfl

/-- Decoding a refresh token issued at t0 succeeds at any time before
t0 plus the refresh lifetime. -/
theorem jwtVerify_refreshTokenOf (cfg : Config) (uid sid : String) (t0 t1 : Nat)
    (h : t1 < t0 + cfg.refreshExpiresIn) :
    jwtVerify cfg.secret t1 (refreshTokenOf cfg uid sid t0) =
      some (.refresh { sessionId := sid, userId := uid }) := by
  simp [jwtVerify, refreshTokenOf, jwtSign, h]

/-- Decoding an access token issued at t0 succeeds at any time before
t0 plus the access lifetime. -/
theorem jwtVerify_accessTokenOf (cfg : Config) (u : User) (dev : Option String)
    (sid : String) (t0 t1 : Nat) (h : t1 < t0 + cfg.expiresIn) :
    jwtVerify cfg.secret t1 (accessTokenOf cfg u dev sid t0) =
      some (.access (accessClaimsOf u dev sid)) := by
  simp [jwtVerify, accessTokenOf, jwtSign, h]

/-- The read phase of a fault-free rotate, run on the state left by issue,
against the refresh token issue returned: it reaches the ok branch with
the freshly written session record. -/
theorem rotateRead_after_issue (cfg : Config) (u : User) (dev : Option String)
    (sid : String) (t0 t1 : Nat) (st : St) (h : t1 < t0 + cfg.refreshExpiresIn) :
    rotateRead cfg t1 noFaults (setSession st sid (newSessionData u dev t0))
        (refreshTokenOf cfg u.id sid t0) =
      .ok { tokSessionId := sid, tokUserId := u.id, session := newSessionData u dev t0 } := by
  simp [rotateRead, jwtVerify_refreshTokenOf cfg u.id sid t0 t1 h, noFaults,
    Claims.sessionId, Claims.userId, getSession_setSession_self, newSessionData]

/-- A fault-free rotate, run on the state left by issue, against the
refresh token issue returned: it succeeds, returns the pair built from the
defaulted user, and its final state has the new record written and the old
sessionId deleted. -/
theorem refreshTokens_after_issue (cfg : Config) (u : User) (dev : Option String)
    (sid sid2 : String) (t0 t1 : Nat) (st : St) (h : t1 < t0 + cfg.refreshExpiresIn) :
    refreshTokens cfg t1 noFaults sid2 (setSession st sid (newSessionData u dev t0))
        (refreshTokenOf cfg u.id sid t0) =
      (.ok (accessTokenOf cfg (userFromSession (newSessionData u dev t0)) dev sid2 t1,
            refreshTokenOf cfg u.id sid2 t1),
       deleteSession
         (setSession (setSession st sid (newSessionData u dev t0)) sid2
           (newSessionData (userFromSession (newSessionData u dev t0)) dev t1))
         sid) := by
  unfold refreshTokens
  rw [rotateRead_after_issue cfg u dev sid t0 t1 st h]
  rfl

/-- A fault-free generateTokens always succeeds, returning the signed pair,
the fresh sessionId and the state with the session record written. -/
theorem generateTokens_noFaults (cfg : Config) (u : User) (dev : Option String)
    (sid : String) (now : Nat) (st : St) :
    generateTokens cfg u dev sid now noFaults st =
      .ok (accessTokenOf cfg u dev sid now, refreshTokenOf cfg u.id sid now, sid,
        setSession st sid (newSessionData u dev now)) := rfl

/-! Claim theorems. -/

/-- Claim C4 (confirmed): for every valid login, issue (generateTokens)
followed immediately by verify on the returned access token succeeds and
returns the same userId that was issued. Any user, device, fresh
sessionId, state and issue time t0: when fault-free generateTokens returns
the pair and post state, a fault-free verifyToken of the access token at
any time t1 before the access expiry returns exactly the claims embedded
in that token, and the userId in those claims is the issued one. -/
theorem issue_then_verify_same_user (cfg : Config) (u : User) (dev : Option String)
    (sid : String) (t0 t1 : Nat) (st : St) (a r : Token) (sid2 : String) (st1 : St)
    (hgen : generateTokens cfg u dev sid t0 noFaults st = .ok (a, r, sid2, st1))
    (hexp : t1 < t0 + cfg.expiresIn) :
    (verifyToken cfg t1 noFaults st1 a).1 = .ok a.claims ∧
      a.claims.userId = u.id := by
  rw [generateTokens_noFaults] at hgen
  simp only [Except.ok.injEq, Prod.mk.injEq] at hgen
  obtain ⟨ha, hr, hsid, hst⟩ := hgen
  subst ha hst
  constructor
  · unfold verifyToken
    rw [jwtVerify_accessTokenOf cfg u dev sid t0 t1 hexp]
    simp [noFaults, Claims.sessionId, accessClaimsOf, getSession_setSession_self,
      accessTokenOf, jwtSign]
  · rfl

/-- Claim C4 witness: the theorem applied at a concrete login. -/
theorem issue_then_verify_same_user_witness :
    (verifyToken cfg0 1 noFaults (setSession st0 "s1" (newSessionData user0 none 0))
        (accessTokenOf cfg0 user0 none "s1" 0)).1 =
      .ok (accessTokenOf cfg0 user0 none "s1" 0).claims ∧
      (accessTokenOf cfg0 user0 none "s1" 0).claims.userId = user0.id :=
  issue_then_verify_same_user cfg0 user0 none "s1" 0 1 st0
    (accessTokenOf cfg0 user0 none "s1" 0) (refreshTokenOf cfg0 user0.id "s1" 0) "s1"
    (setSession st0 "s1" (newSessionData user0 none 0)) rfl (by decide)

/-- Claim C5 (confirmed): after revokeSession on a sessionId, verifyToken
of any access token whose claims reference that session fails at the
session-lookup branch (the branch that logs session-not-found and returns
null), even when the token itself still decodes: good signature and an
expiry that has not elapsed. -/
theorem verify_after_revoke_fails (cfg : Config) (t : Nat) (st : St) (sid : String)
    (tok : Token) (p : AccessPayload) (hc : tok.claims = .access p) (hs : p.sessionId = sid)
    (hsig : tok.sig = cfg.secret) (hexp : t < tok.exp) :
    verifyToken cfg t noFaults (revokeSession st sid) tok =
      (.error .sessionNotFound, revokeSession st sid) := by
  simp [verifyToken, jwtVerify, hsig, hexp, hc, Claims.sessionId, hs, noFaults,
    revokeSession, getSession_deleteSession_self]

/-- Claim C5 witness: the theorem applied at a concrete revoked session. -/
theorem verify_after_revoke_fails_witness :
    verifyToken cfg0 1 noFaults
        (revokeSession (setSession st0 "s1" (newSessionData user0 none 0)) "s1")
        (accessTokenOf cfg0 user0 none "s1" 0) =
      (.error .sessionNotFound,
        revokeSession (setSession st0 "s1" (newSessionData user0 none 0)) "s1") :=
  verify_after_revoke_fails cfg0 1 (setSession st0 "s1" (newSessionData user0 none 0)) "s1"
    (accessTokenOf cfg0 user0 none "s1" 0) (accessClaimsOf user0 none "s1")
    rfl rfl rfl (by decide)

/-- Claim C8 (confirmed): revokeAllUserSessions never touches the session
keyspace. For every state and userId the sessions are unchanged, and the
only effect is the logged intent message. -/
theorem revokeAllUserSessions_noop (st : St) (userId : String) :
    (revokeAllUserSessions st userId).sessions = st.sessions ∧
      (revokeAllUserSessions st userId).log =
        ("Revoking all sessions for user: " ++ userId) :: st.log :=
  ⟨rfl, rfl⟩

/-- Claim C9 (confirmed): a successful rotation issues a new access token
whose identity claims are reset to the defaults. For any user, with
arbitrary nonempty email, username and true flags, issuing at t0 and then
rotating fault-free at t1 succeeds and returns an access token whose
embedded email and username are empty strings and whose isHost and
isVerified are false, while the userId survives: the session record the
rotation reads stores none of these attributes. -/
theorem rotate_resets_claims (cfg : Config) (u : User) (dev : Option String)
    (sid sid2 : String) (t0 t1 : Nat) (st : St) (h : t1 < t0 + cfg.refreshExpiresIn) :
    (refreshTokens cfg t1 noFaults sid2 (setSession st sid (newSessionData u dev t0))
        (refreshTokenOf cfg u.id sid t0)).1 =
      .ok (jwtSign cfg.secret
             (.access { userId := u.id, email := "", username := "", isHost := false,
                        isVerified := false, sessionId := sid2, deviceId := dev })
             t1 cfg.expiresIn,
           refreshTokenOf cfg u.id sid2 t1) := by
  rw [refreshTokens_after_issue cfg u dev sid sid2 t0 t1 st h]
  rfl

/-- Claim C9 witness: the theorem applied to user0, whose email, username
and both flags are nonempty and true at issuance, all reset by rotation. -/
theorem rotate_resets_claims_witness :
    (refreshTokens cfg0 1 noFaults "s2" (setSession st0 "s1" (newSessionData user0 none 0))
        (refreshTokenOf cfg0 user0.id "s1" 0)).1 =
      .ok (jwtSign cfg0.secret
             (.access { userId := "u1", email := "", username := "", isHost := false,
                        isVerified := false, sessionId := "s2", deviceId := none })
             1 cfg0.expiresIn,
           refreshTokenOf cfg0 user0.id "s2" 1) :=
  rotate_resets_claims cfg0 user0 none "s1" "s2" 0 1 st0 (by decide)

/-- Claim C10 (confirmed): a refresh token that decodes and whose
sessionId is live still fails rotation whenever the stored session userId
differs from the token userId (the second disjunct of the guard at
auth.ts line 117), and the state is unchanged. -/
theorem rotate_userId_mismatch_fails (cfg : Config) (t : Nat) (newSid : String)
    (st : St) (tok : Token) (d : Claims) (s : SessionData)
    (hdec : jwtVerify cfg.secret t tok = some d)
    (hget : getSession st d.sessionId = some s)
    (hne : s.userId ≠ d.userId) :
    refreshTokens cfg t noFaults newSid st tok = (.error .userIdMismatch, st) := by
  simp [refreshTokens, rotateRead, hdec, noFaults, hget, hne]

/-- Claim C10 witness: a refresh token claiming userId u2 presented
against a session owned by u1. -/
theorem rotate_userId_mismatch_fails_witness :
    refreshTokens cfg0 1 noFaults "s9" (setSession st0 "s1" (newSessionData user0 none 0))
        (refreshTokenOf cfg0 "u2" "s1" 0) =
      (.error .userIdMismatch, setSession st0 "s1" (newSessionData user0 none 0)) :=
  rotate_userId_mismatch_fails cfg0 1 "s9" (setSession st0 "s1" (newSessionData user0 none 0))
    (refreshTokenOf cfg0 "u2" "s1" 0) (.refresh { sessionId := "s1", userId := "u2" })
    (newSessionData user0 none 0) (by decide) (by decide) (by decide)

/-- Claim C1 counterexample: the claim as stated is false. Concretely:
issue for user0 under sessionId s1 at time 0; a fault-free rotate at time
1 with fresh sessionId s2 succeeds. Replaying the same refresh token at
time 2 fails at the session-lookup branch, and the store holds no record
under s1 at that point, whereas the failure mode the claim names requires
(per the spec, section 4.4 step 3) that the session lookup succeed first.
So the replay fails as SessionNotFound, not GenerationMismatch, and the
revocation of the originating session happened during the first rotate
itself, not as a response to the replay. -/
theorem rotate_replay_counterexample :
    (refreshTokens cfg0 2 noFaults "s3"
        (refreshTokens cfg0 1 noFaults "s2" (setSession st0 "s1" (newSessionData user0 none 0))
          (refreshTokenOf cfg0 "u1" "s1" 0)).2
        (refreshTokenOf cfg0 "u1" "s1" 0)).1 = .error .sessionNotFound ∧
      ¬ specCanGenerationMismatch
        (refreshTokens cfg0 1 noFaults "s2" (setSession st0 "s1" (newSessionData user0 none 0))
          (refreshTokenOf cfg0 "u1" "s1" 0)).2 "s1" := by
  refine ⟨rfl, ?_⟩
  simp only [specCanGenerationMismatch]
  decide

/-- Claim C1 amended: after a fault-free rotate of the refresh token of
session sid succeeds (the rotation itself deletes the session record),
re-presenting the same refresh token fails at the session-lookup branch
with SessionNotFound: the originating session is indeed fully
unverifiable from that point on, but no generation comparison is
involved, because the store no longer holds any record under sid that a
generation check could run against. -/
theorem rotate_replay_fails_sessionNotFound (cfg : Config) (u : User) (dev : Option String)
    (sid sid2 sid3 : String) (t0 t1 t2 : Nat) (st : St)
    (h1 : t1 < t0 + cfg.refreshExpiresIn) (h2 : t2 < t0 + cfg.refreshExpiresIn) :
    (refreshTokens cfg t2 noFaults sid3
        (refreshTokens cfg t1 noFaults sid2 (setSession st sid (newSessionData u dev t0))
          (refreshTokenOf cfg u.id sid t0)).2
        (refreshTokenOf cfg u.id sid t0)).1 = .error .sessionNotFound ∧
      ¬ specCanGenerationMismatch
        (refreshTokens cfg t1 noFaults sid2 (setSession st sid (newSessionData u dev t0))
          (refreshTokenOf cfg u.id sid t0)).2 sid := by
  rw [refreshTokens_after_issue cfg u dev sid sid2 t0 t1 st h1]
  constructor
  · simp [refreshTokens, rotateRead, jwtVerify_refreshTokenOf cfg u.id sid t0 t2 h2,
      noFaults, Claims.sessionId, getSession_deleteSession_self]
  · simp [specCanGenerationMismatch, getSession_deleteSession_self]

/-- Claim C1 amended witness: the theorem applied at a concrete run. -/
theorem rotate_replay_fails_sessionNotFound_witness :
    (refreshTokens cfg0 3 noFaults "s4"
        (refreshTokens cfg0 1 noFaults "s2" (setSession st0 "s1" (newSessionData user0 none 0))
          (refreshTokenOf cfg0 user0.id "s1" 0)).2
        (refreshTokenOf cfg0 user0.id "s1" 0)).1 = .error .sessionNotFound ∧
      ¬ specCanGenerationMismatch
        (refreshTokens cfg0 1 noFaults "s2" (setSession st0 "s1" (newSessionData user0 none 0))
          (refreshTokenOf cfg0 user0.id "s1" 0)).2 "s1" :=
  rotate_replay_fails_sessionNotFound cfg0 user0 none "s1" "s2" "s4" 0 1 3 st0
    (by decide) (by decide)

/-- Claim C2 counterexample: the claim as stated is false. Concretely:
issue for user0 under sessionId s1 at time 0, then present the refresh
token to verifyToken at time 1. The call does not fail at all, with a
kind mismatch or otherwise: it succeeds and returns the decoded refresh
claims, because the signed payloads carry no kind discriminator and
verifyToken performs no kind check. -/
theorem verify_refresh_token_counterexample :
    (verifyToken cfg0 1 noFaults (setSession st0 "s1" (newSessionData user0 none 0))
        (refreshTokenOf cfg0 "u1" "s1" 0)).1 =
      .ok (.refresh { sessionId := "s1", userId := "u1" }) := rfl

/-- Claim C2 amended: presenting the refresh token where an access token
is expected does not fail with a kind mismatch; since tokens carry no
kind discriminator and verifyToken checks none, a fault-free verifyToken
of the refresh token, run on the state issue left while the session is
live, succeeds and returns the decoded refresh claims. -/
theorem verify_accepts_refresh_token (cfg : Config) (u : User) (dev : Option String)
    (sid : String) (t0 t1 : Nat) (st : St) (h : t1 < t0 + cfg.refreshExpiresIn) :
    (verifyToken cfg t1 noFaults (setSession st sid (newSessionData u dev t0))
        (refreshTokenOf cfg u.id sid t0)).1 =
      .ok (.refresh { sessionId := sid, userId := u.id }) := by
  unfold verifyToken
  rw [jwtVerify_refreshTokenOf cfg u.id sid t0 t1 h]
  simp [noFaults, Claims.sessionId, getSession_setSession_self]

/-- Claim C2 amended witness: the theorem applied at a concrete pair. -/
theorem verify_accepts_refresh_token_witness :
    (verifyToken cfg0 2 noFaults (setSession st0 "s7" (newSessionData user0 none 0))
        (refreshTokenOf cfg0 user0.id "s7" 0)).1 =
      .ok (.refresh { sessionId := "s7", userId := user0.id }) :=
  verify_accepts_refresh_token cfg0 user0 none "s7" 0 2 st0 (by decide)

/-- Claim C3 counterexample: the claim as stated is false. Concretely:
issue for user0 under sessionId s1 at time 0 with a 900-second access
lifetime; a fault-free rotate at time 1 succeeds; verifying the original
access token at time 2, well before its own expiry, fails at the
session-lookup branch instead of succeeding, because the rotation
deleted the session the token references. -/
theorem old_access_after_rotate_counterexample :
    (verifyToken cfg0 2 noFaults
        (refreshTokens cfg0 1 noFaults "s2" (setSession st0 "s1" (newSessionData user0 none 0))
          (refreshTokenOf cfg0 "u1" "s1" 0)).2
        (accessTokenOf cfg0 user0 none "s1" 0)).1 = .error .sessionNotFound := rfl

/-- Claim C3 amended: rotation deletes the old session record and issues
the new pair under a brand-new sessionId, so old access tokens are
invalidated immediately by rotation: after a fault-free successful
rotate, verifyToken of the pre-rotation access token fails at the
session-lookup branch even at a time strictly before that token expires. -/
theorem verify_old_access_after_rotate_fails (cfg : Config) (u : User) (dev : Option String)
    (sid sid2 : String) (t0 t1 t2 : Nat) (st : St)
    (h1 : t1 < t0 + cfg.refreshExpiresIn) (h2 : t2 < t0 + cfg.expiresIn) :
    (verifyToken cfg t2 noFaults
        (refreshTokens cfg t1 noFaults sid2 (setSession st sid (newSessionData u dev t0))
          (refreshTokenOf cfg u.id sid t0)).2
        (accessTokenOf cfg u dev sid t0)).1 = .error .sessionNotFound := by
  rw [refreshTokens_after_issue cfg u dev sid sid2 t0 t1 st h1]
  unfold verifyToken
  rw [jwtVerify_accessTokenOf cfg u dev sid t0 t2 h2]
  simp [noFaults, Claims.sessionId, accessClaimsOf, getSession_deleteSession_self]

/-- Claim C3 amended witness: the theorem applied at a concrete run. -/
theorem verify_old_access_after_rotate_fails_witness :
    (verifyToken cfg0 3 noFaults
        (refreshTokens cfg0 1 noFaults "s2" (setSession st0 "s1" (newSessionData user0 none 0))
          (refreshTokenOf cfg0 user0.id "s1" 0)).2
        (accessTokenOf cfg0 user0 none "s1" 0)).1 = .error .sessionNotFound :=
  verify_old_access_after_rotate_fails cfg0 user0 none "s1" "s2" 0 1 3 st0
    (by decide) (by decide)

/-- Claim C6 counterexample: the claim as stated is false. Concretely: a
live session under s1, a valid access token referencing it, and a run in
which the SETEX writing the touched lastActivity record rejects. The
whole of verifyToken sits in one try block whose catch returns null, so
the call fails instead of returning the identity built from the token
claims. -/
theorem activity_write_failure_counterexample :
    verifyToken cfg0 1 { getFails := false, setFails := true, delFails := false }
        (setSession st0 "s1" (newSessionData user0 none 0))
        (accessTokenOf cfg0 user0 none "s1" 0) =
      (.error .storeError, setSession st0 "s1" (newSessionData user0 none 0)) := rfl

/-- Claim C6 amended: the lastActivity update is not best-effort. When
the token decodes and the session lookup succeeds but the store write of
the touched record rejects, verifyToken fails (the catch swallows the
rejection and returns null) and the state is unchanged; the identity is
returned only when the write succeeds. -/
theorem verify_fails_on_activity_write_failure (cfg : Config) (t : Nat) (st : St)
    (tok : Token) (d : Claims) (s : SessionData) (f : Faults)
    (hdec : jwtVerify cfg.secret t tok = some d)
    (hget : f.getFails = false) (hset : f.setFails = true)
    (hs : getSession st d.sessionId = some s) :
    verifyToken cfg t f st tok = (.error .storeError, st) := by
  simp [verifyToken, hdec, hget, hset, hs]

/-- Claim C6 amended witness: the theorem applied at a concrete faulty
run. -/
theorem verify_fails_on_activity_write_failure_witness :
    verifyToken cfg0 2 { getFails := false, setFails := true, delFails := false }
        (setSession st0 "s8" (newSessionData user0 none 0))
        (accessTokenOf cfg0 user0 none "s8" 0) =
      (.error .storeError, setSession st0 "s8" (newSessionData user0 none 0)) :=
  verify_fails_on_activity_write_failure cfg0 2
    (setSession st0 "s8" (newSessionData user0 none 0))
    (accessTokenOf cfg0 user0 none "s8" 0) (.access (accessClaimsOf user0 none "s8"))
    (newSessionData user0 none 0) { getFails := false, setFails := true, delFails := false }
    (by decide) rfl rfl (by decide)

/-- Claim C7 counterexample: the claim as stated is false. Concretely:
a live session under s1 and two concurrent fault-free rotates presenting
the identical still-valid refresh token, scheduled so that both read
phases run before either write phase (each phase is a contiguous block
containing at most one Redis command, so this schedule is realizable).
Both calls succeed, and both replacement sessions are live afterwards:
it is not the case that exactly one succeeds, and no call fails with any
mismatch error. -/
theorem concurrent_rotate_counterexample :
    rotateSucceeded (twoConcurrentRotates cfg0 1 "s2" "s3"
        (setSession st0 "s1" (newSessionData user0 none 0))
        (refreshTokenOf cfg0 "u1" "s1" 0)).1 = true ∧
      rotateSucceeded (twoConcurrentRotates cfg0 1 "s2" "s3"
        (setSession st0 "s1" (newSessionData user0 none 0))
        (refreshTokenOf cfg0 "u1" "s1" 0)).2.1 = true ∧
      (getSession (twoConcurrentRotates cfg0 1 "s2" "s3"
        (setSession st0 "s1" (newSessionData user0 none 0))
        (refreshTokenOf cfg0 "u1" "s1" 0)).2.2 "s2").isSome = true ∧
      (getSession (twoConcurrentRotates cfg0 1 "s2" "s3"
        (setSession st0 "s1" (newSessionData user0 none 0))
        (refreshTokenOf cfg0 "u1" "s1" 0)).2.2 "s3").isSome = true :=
  ⟨rfl, rfl, rfl, rfl⟩

/-- Claim C7 amended: the code performs no atomic check-then-increment
(there is no generation field at all), and the read and write phases of
refreshTokens are separate Redis commands. In the interleaving where both
concurrent rotates run their read phase before either write phase, both
calls succeed, each issuing its own pair: exactly-one-success is not
guaranteed by the code. -/
theorem concurrent_rotates_both_succeed (cfg : Config) (now : Nat)
    (newSid1 newSid2 : String) (st : St) (tok : Token) (v : RotateView)
    (hread : rotateRead cfg now noFaults st tok = .ok v) :
    rotateSucceeded (twoConcurrentRotates cfg now newSid1 newSid2 st tok).1 = true ∧
      rotateSucceeded (twoConcurrentRotates cfg now newSid1 newSid2 st tok).2.1 = true := by
  unfold twoConcurrentRotates
  rw [hread]
  exact ⟨rfl, rfl⟩

/-- Claim C7 amended witness: the theorem applied at a concrete race. -/
theorem concurrent_rotates_both_succeed_witness :
    rotateSucceeded (twoConcurrentRotates cfg0 2 "s5" "s6"
        (setSession st0 "s1" (newSessionData user0 none 0))
        (refreshTokenOf cfg0 user0.id "s1" 0)).1 = true ∧
      rotateSucceeded (twoConcurrentRotates cfg0 2 "s5" "s6"
        (setSession st0 "s1" (newSessionData user0 none 0))
        (refreshTokenOf cfg0 user0.id "s1" 0)).2.1 = true :=
  concurrent_rotates_both_succeed cfg0 2 "s5" "s6"
    (setSession st0 "s1" (newSessionData user0 none 0))
    (refreshTokenOf cfg0 user0.id "s1" 0)
    { tokSessionId := "s1", tokUserId := "u1", session := newSessionData user0 none 0 }
    rfl

end TriviaAuth
